import Mathlib

/-!
Shallow embedding of the Ghostcopy Windows runner shell
(`windows/runner/power_monitor.cpp`, `windows/runner/flutter_window.cpp`).

Stateful C++ code is modelled by explicit state passing: each operation
returns its updated state together with the list of channel invocations
(`InvokeMethod` calls) it performed, in order.
-/

namespace Ghostcopy

/-! Windows constants, from `<windows.h>` / `<wtsapi32.h>`. -/

def PBT_APMSUSPEND : Nat := 0x0004
def PBT_APMRESUMESUSPEND : Nat := 0x0007
def PBT_APMRESUMEAUTOMATIC : Nat := 0x0012
def WTS_SESSION_LOCK : Nat := 0x7
def WTS_SESSION_UNLOCK : Nat := 0x8
def WM_FONTCHANGE : Nat := 0x001D
def WM_POWERBROADCAST : Nat := 0x0218
def WM_WTSSESSION_CHANGE : Nat := 0x02B1

/-- A Flutter method channel, identified by its name string. -/
structure MethodChannel where
  name : String
deriving DecidableEq

/-- A recorded `channel_->InvokeMethod(method, args)` call.
`args = none` models C++ `nullptr` arguments (no payload). -/
structure Invocation where
  channel : String
  method : String
  args : Option String
deriving DecidableEq

/-- Reply produced by the inbound method-call handler. -/
inductive MethodResult where
  | success
  | notImplemented
deriving DecidableEq

/-- The lambda installed by `channel_->SetMethodCallHandler` in the
`PowerMonitor` constructor: `Success()` for `"startListening"`,
`NotImplemented()` for everything else. -/
def methodCallHandler (method_name : String) : MethodResult :=
  if method_name = "startListening" then MethodResult.success
  else MethodResult.notImplemented

/-- The `PowerMonitor` class: its only data member is the (possibly null)
`std::unique_ptr` method channel `channel_`. -/
structure PowerMonitor where
  channel_ : Option MethodChannel
deriving DecidableEq

/-- The `PowerMonitor` constructor: creates the method channel named
`"com.ghostcopy.app/power"`. -/
def PowerMonitor.create : PowerMonitor :=
  { channel_ := some { name := "com.ghostcopy.app/power" } }

/-- `PowerMonitor::SendEvent`: if `channel_` is non-null, invoke the method
named `event_name` with `nullptr` arguments; otherwise do nothing. -/
def PowerMonitor.SendEvent (pm : PowerMonitor) (event_name : String) :
    PowerMonitor × List Invocation :=
  match pm.channel_ with
  | some ch => (pm, [{ channel := ch.name, method := event_name, args := none }])
  | none => (pm, [])

/-- `PowerMonitor::HandlePowerBroadcast`: switch on `wparam`. -/
def PowerMonitor.HandlePowerBroadcast (pm : PowerMonitor) (wparam : Nat) :
    PowerMonitor × List Invocation :=
  if wparam = PBT_APMSUSPEND then
    pm.SendEvent "systemSuspend"
  else if wparam = PBT_APMRESUMEAUTOMATIC ∨ wparam = PBT_APMRESUMESUSPEND then
    pm.SendEvent "systemResume"
  else
    (pm, [])

/-- `PowerMonitor::HandleSessionChange`: switch on `wparam`. -/
def PowerMonitor.HandleSessionChange (pm : PowerMonitor) (wparam : Nat) :
    PowerMonitor × List Invocation :=
  if wparam = WTS_SESSION_LOCK then
    pm.SendEvent "sessionLock"
  else if wparam = WTS_SESSION_UNLOCK then
    pm.SendEvent "sessionUnlock"
  else
    (pm, [])

/-! ## FlutterWindow (`flutter_window.cpp`) -/

/-- Win32 `RECT`, as returned by `GetClientArea()`. -/
structure RECT where
  left : Int
  top : Int
  right : Int
  bottom : Int
deriving DecidableEq

/-- External collaborators of `FlutterWindow::OnCreate`: the base-class
result, the client rectangle, and whether the freshly constructed
controller's `engine()` and `view()` are non-null. -/
structure FWEnv where
  win32OnCreateOk : Bool
  clientArea : RECT
  engineOk : Bool
  viewOk : Bool
deriving DecidableEq

/-- Observable side effects of the window code, in program order. -/
inductive Action where
  | createController (width : Int) (height : Int)
  | registerPlugins
  | setChildContent
  | createPowerMonitor
  | wtsRegisterSession
  | setNextFrameCallback
  | forceRedraw
  | showWindow
deriving DecidableEq

/-- The `FlutterWindow` members touched here: the `flutter_controller_`
unique_ptr (modelled by whether it is non-null) and `power_monitor_`. -/
structure WindowState where
  flutter_controller_ : Bool
  power_monitor_ : Option PowerMonitor
deriving DecidableEq

/-- `FlutterWindow::OnCreate`: returns (return value, member state after the
call, actions performed inside the call). `Show()` is not among the actions:
it only runs inside the next-frame callback, modelled by
`nextFrameCallback`. -/
def OnCreate (env : FWEnv) : Bool × WindowState × List Action :=
  if env.win32OnCreateOk = false then
    (false, { flutter_controller_ := false, power_monitor_ := none }, [])
  else
    let frame := env.clientArea
    let ctrl := Action.createController (frame.right - frame.left) (frame.bottom - frame.top)
    if env.engineOk = false ∨ env.viewOk = false then
      (false, { flutter_controller_ := true, power_monitor_ := none }, [ctrl])
    else
      (true,
       { flutter_controller_ := true, power_monitor_ := some PowerMonitor.create },
       [ctrl, Action.registerPlugins, Action.setChildContent, Action.createPowerMonitor,
        Action.wtsRegisterSession, Action.setNextFrameCallback, Action.forceRedraw])

/-- The lambda passed to `SetNextFrameCallback`: calls `Show()` iff
`flutter_controller_` is still non-null when the engine fires it. -/
def nextFrameCallback (st : WindowState) : List Action :=
  if st.flutter_controller_ then [Action.showWindow] else []

/-- Environment of `FlutterWindow::MessageHandler`: the value
`HandleTopLevelWindowProc` would return (when the controller is non-null),
and the base-class `Win32Window::MessageHandler` result. -/
structure MHEnv where
  topLevelResult : Option Int
  win32Result : Int
deriving DecidableEq

/-- `FlutterWindow::MessageHandler`. Returns `some (lresult, invocations)`
on a normal path; `none` models a null-pointer dereference (the unguarded
`flutter_controller_->engine()` in the `WM_FONTCHANGE` branch). -/
def MessageHandler (env : MHEnv) (st : WindowState) (message : Nat) (wparam : Nat) :
    Option (Int × List Invocation) :=
  match (if st.flutter_controller_ then env.topLevelResult else none) with
  | some r => some (r, [])
  | none =>
    if message = WM_FONTCHANGE then
      if st.flutter_controller_ then some (env.win32Result, [])
      else none
    else if message = WM_POWERBROADCAST then
      match st.power_monitor_ with
      | some pm => some (env.win32Result, (pm.HandlePowerBroadcast wparam).2)
      | none => some (env.win32Result, [])
    else if message = WM_WTSSESSION_CHANGE then
      match st.power_monitor_ with
      | some pm => some (env.win32Result, (pm.HandleSessionChange wparam).2)
      | none => some (env.win32Result, [])
    else
      some (env.win32Result, [])

/-- A fully successful `OnCreate` environment, for witnesses. -/
def envOk : FWEnv :=
  { win32OnCreateOk := true
    clientArea := { left := 0, top := 0, right := 800, bottom := 600 }
    engineOk := true
    viewOk := true }

/-! ## Claims about `PowerMonitor` -/

/-- C1: each recognized OS event value makes the handler emit exactly one
named notification, with the fixed mapping: `PBT_APMSUSPEND ↦ systemSuspend`,
`PBT_APMRESUMEAUTOMATIC ↦ systemResume`, `PBT_APMRESUMESUSPEND ↦
systemResume`, `WTS_SESSION_LOCK ↦ sessionLock`, `WTS_SESSION_UNLOCK ↦
sessionUnlock`. -/
theorem c1_event_mapping :
    (PowerMonitor.create.HandlePowerBroadcast PBT_APMSUSPEND).2.map Invocation.method
        = ["systemSuspend"]
  ∧ (PowerMonitor.create.HandlePowerBroadcast PBT_APMRESUMEAUTOMATIC).2.map Invocation.method
        = ["systemResume"]
  ∧ (PowerMonitor.create.HandlePowerBroadcast PBT_APMRESUMESUSPEND).2.map Invocation.method
        = ["systemResume"]
  ∧ (PowerMonitor.create.HandleSessionChange WTS_SESSION_LOCK).2.map Invocation.method
        = ["sessionLock"]
  ∧ (PowerMonitor.create.HandleSessionChange WTS_SESSION_UNLOCK).2.map Invocation.method
        = ["sessionUnlock"] := by
  decide

/-- C2: the inbound method-call handler replies `Success` iff the method
name is `"startListening"`, and `NotImplemented` for every other name. -/
theorem c2_inbound_handler (m : String) :
    (methodCallHandler m = MethodResult.success ↔ m = "startListening")
  ∧ (m ≠ "startListening" → methodCallHandler m = MethodResult.notImplemented) := by
  constructor
  · constructor
    · intro h
      by_contra hm
      simp [methodCallHandler, hm] at h
    · intro h
      simp [methodCallHandler, h]
  · intro h
    simp [methodCallHandler, h]

/-- Witness for C2 at the concrete names `"startListening"` and
`"stopListening"`. -/
theorem c2_inbound_handler_witness :
    methodCallHandler "startListening" = MethodResult.success
  ∧ methodCallHandler "stopListening" = MethodResult.notImplemented :=
  ⟨(c2_inbound_handler "startListening").1.mpr rfl,
   (c2_inbound_handler "stopListening").2 (by decide)⟩

/-- C5: with a null `channel_`, `SendEvent` delivers nothing, produces no
error, and leaves the monitor state unchanged, for every event name. -/
theorem c5_null_channel_suppresses (pm : PowerMonitor) (event_name : String)
    (h : pm.channel_ = none) :
    pm.SendEvent event_name = (pm, []) := by
  simp [PowerMonitor.SendEvent, h]

/-- Witness for C5: a monitor whose channel is null, with event
`"systemSuspend"`. -/
theorem c5_null_channel_suppresses_witness :
    PowerMonitor.SendEvent { channel_ := none } "systemSuspend"
      = ({ channel_ := none }, []) :=
  c5_null_channel_suppresses { channel_ := none } "systemSuspend" rfl

/-- C6: `SendEvent` is fire-and-forget with no payload: it never changes
the monitor state, and every invocation it emits carries the event name as
method and `nullptr` (`none`) arguments. -/
theorem c6_no_payload (pm : PowerMonitor) (event_name : String) :
    (pm.SendEvent event_name).1 = pm
  ∧ ∀ inv ∈ (pm.SendEvent event_name).2,
      inv.args = none ∧ inv.method = event_name := by
  unfold PowerMonitor.SendEvent
  cases h : pm.channel_ with
  | none => simp
  | some ch => simp

/-- Witness for C6 on the constructed monitor and event `"systemResume"`. -/
theorem c6_no_payload_witness :
    (PowerMonitor.create.SendEvent "systemResume").1 = PowerMonitor.create
  ∧ ({ channel := "com.ghostcopy.app/power", method := "systemResume",
       args := none } : Invocation).args = none
  ∧ ({ channel := "com.ghostcopy.app/power", method := "systemResume",
       args := none } : Invocation).method = "systemResume" :=
  ⟨(c6_no_payload PowerMonitor.create "systemResume").1,
   (c6_no_payload PowerMonitor.create "systemResume").2 _ (by decide)⟩

/-- C8: for every `wparam`, any notification either handler emits (on the
constructed monitor) has one of the four fixed names and goes out on the
channel `"com.ghostcopy.app/power"`. -/
theorem c8_names_and_channel (wparam : Nat) :
    (∀ inv ∈ (PowerMonitor.create.HandlePowerBroadcast wparam).2,
        inv.channel = "com.ghostcopy.app/power"
      ∧ inv.method ∈ ["systemSuspend", "systemResume", "sessionLock", "sessionUnlock"])
  ∧ (∀ inv ∈ (PowerMonitor.create.HandleSessionChange wparam).2,
        inv.channel = "com.ghostcopy.app/power"
      ∧ inv.method ∈ ["systemSuspend", "systemResume", "sessionLock", "sessionUnlock"]) := by
  unfold PowerMonitor.HandlePowerBroadcast PowerMonitor.HandleSessionChange
  constructor <;> split_ifs <;> simp [PowerMonitor.SendEvent, PowerMonitor.create]

/-- Witness for C8 at `wparam = PBT_APMSUSPEND` and `wparam =
WTS_SESSION_LOCK`, on the invocations those calls actually emit. -/
theorem c8_names_and_channel_witness :
    (({ channel := "com.ghostcopy.app/power", method := "systemSuspend",
        args := none } : Invocation).channel = "com.ghostcopy.app/power"
      ∧ ({ channel := "com.ghostcopy.app/power", method := "systemSuspend",
           args := none } : Invocation).method
          ∈ ["systemSuspend", "systemResume", "sessionLock", "sessionUnlock"])
  ∧ (({ channel := "com.ghostcopy.app/power", method := "sessionLock",
        args := none } : Invocation).channel = "com.ghostcopy.app/power"
      ∧ ({ channel := "com.ghostcopy.app/power", method := "sessionLock",
           args := none } : Invocation).method
          ∈ ["systemSuspend", "systemResume", "sessionLock", "sessionUnlock"]) :=
  ⟨(c8_names_and_channel PBT_APMSUSPEND).1 _ (by decide),
   (c8_names_and_channel WTS_SESSION_LOCK).2 _ (by decide)⟩

/-- C10: every `wparam` outside the recognized set makes the handler emit
nothing and return with the monitor state unchanged. -/
theorem c10_unrecognized_ignored (pm : PowerMonitor) (wparam : Nat) :
    (wparam ∉ [PBT_APMSUSPEND, PBT_APMRESUMEAUTOMATIC, PBT_APMRESUMESUSPEND] →
        pm.HandlePowerBroadcast wparam = (pm, []))
  ∧ (wparam ∉ [WTS_SESSION_LOCK, WTS_SESSION_UNLOCK] →
        pm.HandleSessionChange wparam = (pm, [])) := by
  constructor
  · intro h
    simp only [List.mem_cons, List.not_mem_nil, or_false, not_or] at h
    simp [PowerMonitor.HandlePowerBroadcast, h.1, h.2.1, h.2.2]
  · intro h
    simp only [List.mem_cons, List.not_mem_nil, or_false, not_or] at h
    simp [PowerMonitor.HandleSessionChange, h.1, h.2]

/-- Witness for C10 at `wparam = 0`, which is outside both recognized
sets. -/
theorem c10_unrecognized_ignored_witness :
    PowerMonitor.create.HandlePowerBroadcast 0 = (PowerMonitor.create, [])
  ∧ PowerMonitor.create.HandleSessionChange 0 = (PowerMonitor.create, []) :=
  ⟨(c10_unrecognized_ignored PowerMonitor.create 0).1 (by decide),
   (c10_unrecognized_ignored PowerMonitor.create 0).2 (by decide)⟩

/-! ## Claims about `FlutterWindow` -/

/-- C3: `OnCreate` never calls `Show()` itself; on success its last two
actions are registering the next-frame callback and then `ForceRedraw`,
and the registered callback is what calls `Show()` (when the controller is
still alive). -/
theorem c3_show_deferred (env : FWEnv) :
    Action.showWindow ∉ (OnCreate env).2.2
  ∧ ((OnCreate env).1 = true →
      (∃ pre, (OnCreate env).2.2
          = pre ++ [Action.setNextFrameCallback, Action.forceRedraw]))
  ∧ ((OnCreate env).2.1.flutter_controller_ = true →
      nextFrameCallback (OnCreate env).2.1 = [Action.showWindow]) := by
  obtain ⟨w, ca, e, v⟩ := env
  refine ⟨?_, ?_, ?_⟩
  · cases w <;> cases e <;> cases v <;> simp [OnCreate]
  · intro h
    cases w <;> cases e <;> cases v <;> simp [OnCreate] at h ⊢
    exact ⟨[Action.createController (ca.right - ca.left) (ca.bottom - ca.top),
            Action.registerPlugins, Action.setChildContent, Action.createPowerMonitor,
            Action.wtsRegisterSession], rfl⟩
  · intro h
    simp [nextFrameCallback, h]

/-- Witness for C3 at the fully successful environment `envOk`. -/
theorem c3_show_deferred_witness :
    Action.showWindow ∉ (OnCreate envOk).2.2
  ∧ (∃ pre, (OnCreate envOk).2.2
        = pre ++ [Action.setNextFrameCallback, Action.forceRedraw])
  ∧ nextFrameCallback (OnCreate envOk).2.1 = [Action.showWindow] :=
  ⟨(c3_show_deferred envOk).1,
   (c3_show_deferred envOk).2.1 (by decide),
   (c3_show_deferred envOk).2.2 (by decide)⟩

/-- C4: if the constructed controller's engine or view is unavailable,
`OnCreate` returns `false`, registers no plugins, creates no power monitor,
and does not show the window. -/
theorem c4_engine_failure_aborts (env : FWEnv)
    (h : env.engineOk = false ∨ env.viewOk = false) :
    (OnCreate env).1 = false
  ∧ Action.registerPlugins ∉ (OnCreate env).2.2
  ∧ Action.createPowerMonitor ∉ (OnCreate env).2.2
  ∧ (OnCreate env).2.1.power_monitor_ = none
  ∧ Action.showWindow ∉ (OnCreate env).2.2 := by
  obtain ⟨w, ca, e, v⟩ := env
  cases w <;> cases e <;> cases v <;> simp_all [OnCreate]

/-- Witness for C4: `envOk` with a failed engine. -/
theorem c4_engine_failure_aborts_witness :
    (OnCreate { envOk with engineOk := false }).1 = false
  ∧ Action.registerPlugins ∉ (OnCreate { envOk with engineOk := false }).2.2
  ∧ Action.createPowerMonitor ∉ (OnCreate { envOk with engineOk := false }).2.2
  ∧ (OnCreate { envOk with engineOk := false }).2.1.power_monitor_ = none
  ∧ Action.showWindow ∉ (OnCreate { envOk with engineOk := false }).2.2 :=
  c4_engine_failure_aborts { envOk with engineOk := false } (Or.inl rfl)

/-- C7: once past the base-class check, the controller is constructed with
width `right - left` and height `bottom - top` of the client area, as the
first action of `OnCreate`. -/
theorem c7_surface_sized_to_client_area (env : FWEnv)
    (h : env.win32OnCreateOk = true) :
    ((OnCreate env).2.2).head?
      = some (Action.createController
          (env.clientArea.right - env.clientArea.left)
          (env.clientArea.bottom - env.clientArea.top)) := by
  obtain ⟨w, ca, e, v⟩ := env
  cases w <;> cases e <;> cases v <;> simp_all [OnCreate]

/-- Witness for C7 at `envOk`: a controller sized 800 by 600. -/
theorem c7_surface_sized_to_client_area_witness :
    ((OnCreate envOk).2.2).head? = some (Action.createController 800 600) :=
  c7_surface_sized_to_client_area envOk rfl

/-- C9: with a null `flutter_controller_`, a `WM_FONTCHANGE` message makes
`MessageHandler` dereference a null pointer (modelled as `none`), while the
`WM_POWERBROADCAST` and `WM_WTSSESSION_CHANGE` branches guard
`power_monitor_` and stay on a defined path. -/
theorem c9_fontchange_null_deref (env : MHEnv) (st : WindowState) (wparam : Nat)
    (hc : st.flutter_controller_ = false) :
    MessageHandler env st WM_FONTCHANGE wparam = none
  ∧ MessageHandler env st WM_POWERBROADCAST wparam ≠ none
  ∧ MessageHandler env st WM_WTSSESSION_CHANGE wparam ≠ none := by
  refine ⟨?_, ?_, ?_⟩ <;>
    · unfold MessageHandler
      rw [hc]
      cases st.power_monitor_ <;> simp [WM_FONTCHANGE, WM_POWERBROADCAST, WM_WTSSESSION_CHANGE]

/-- Witness for C9: the post-`OnDestroy` state (both members null) with a
default environment and `wparam = 0`. -/
theorem c9_fontchange_null_deref_witness :
    MessageHandler { topLevelResult := none, win32Result := 0 }
        { flutter_controller_ := false, power_monitor_ := none } WM_FONTCHANGE 0 = none
  ∧ MessageHandler { topLevelResult := none, win32Result := 0 }
        { flutter_controller_ := false, power_monitor_ := none } WM_POWERBROADCAST 0 ≠ none
  ∧ MessageHandler { topLevelResult := none, win32Result := 0 }
        { flutter_controller_ := false, power_monitor_ := none } WM_WTSSESSION_CHANGE 0 ≠ none :=
  c9_fontchange_null_deref { topLevelResult := none, win32Result := 0 }
    { flutter_controller_ := false, power_monitor_ := none } 0 rfl

end Ghostcopy
